import Mathlib

/-!
Shallow embedding of the `asicam_rs` repository (crates `cameraunit`,
`cameraunit_asi`, `imagedata`) for checking its natural-language
specification.

Conventions of the embedding:
* `Duration` values are carried as natural numbers of microseconds
  (the source only ever inspects durations through `as_micros`).
* `f32`/`f64` arithmetic is carried out exactly over `ℚ`; every concrete
  input used in a theorem is chosen so that the float rounding of the
  source cannot move any comparison across its boundary.
* Rust `i32`/`i64` values are `Int`; Rust `/` and `%` on signed integers
  truncate toward zero, embedded as `Int.tdiv` / `Int.tmod`.
* The vendor SDK (`ASI*` calls) is an external collaborator: each SDK
  call made by a function under study is given to the embedding as an
  explicit outcome ("oracle") argument, and the embedding records which
  hardware commands were issued.
* `cameraunit::Error` carries human-readable `String` payloads; the
  embedding replaces each distinct construction site's message by a
  distinct constructor, which is all the control flow ever depends on.
-/

deriving instance DecidableEq for Except

namespace Asicam

/-- Embedding of `cameraunit::Error` (src/cameraunit/src/lib.rs, lines
176-198).  String payloads are replaced by one constructor per distinct
construction site used in the embedded code. -/
inductive Error where
  | InvalidId
  | CameraClosed
  | TimedOut
  | ExposureInProgress
  | GeneralErrorVideoModeActive
  | InvalidMode
  | ExposureFailedUnknown
  | ExposureFailedNoData
  | ExposureFailedTimedOut
  | InvalidValueGainRange
  | InvalidValueGainRawLow
  | InvalidValueGainRawHigh
  | InvalidValueBinNotEqual
  | InvalidValueBinTooSmall
  | InvalidValueBinUnsupported
  | InvalidValueRoiNegative
  | InvalidValueASI120
  | InvalidValueStartPos
  | InvalidValueExposureLow
  | InvalidValueExposureHigh
  | InvalidControlTypeNoShutter
  | OutOfBoundsX
  | OutOfBoundsY
  | OutOfBoundsStartPos
  | MessageSetControl
  deriving DecidableEq, Repr

/-- `ASIExposureStatus` (src/cameraunit_asi/src/asicamera_2.rs, lines
1127-1134). -/
inductive ASIExposureStatus where
  | Idle
  | Working
  | Success
  | Failed
  deriving DecidableEq, Repr

/-- `ASIImageFormat` (asicamera_2.rs, lines 1092-1098). -/
inductive ASIImageFormat where
  | Image_RAW8
  | Image_RGB24
  | Image_RAW16
  deriving DecidableEq, Repr

/-- `ASIRoiMode` (asicamera_2.rs, lines 1148-1154). -/
structure ASIRoiMode where
  width : Int
  height : Int
  bin : Int
  fmt : ASIImageFormat
  deriving DecidableEq, Repr

/-- `cameraunit::ROI` (src/cameraunit/src/lib.rs, lines 5-13). -/
structure ROI where
  x_min : Int
  x_max : Int
  y_min : Int
  y_max : Int
  bin_x : Int
  bin_y : Int
  deriving DecidableEq, Repr

/-- The fields of `ASICameraProps` consulted by `set_roi`
(asicamera_2.rs, lines 50-68).  `name_has_ASI120` embeds
`self.camera_name().contains("ASI120")`. -/
structure CamProps where
  max_width : Int
  max_height : Int
  supported_bins : List Int
  is_usb3_camera : Bool
  name_has_ASI120 : Bool
  deriving DecidableEq, Repr

/-! ## `is_capturing` (claim C9)

Both `CameraInfo_ASI::is_capturing` (asicamera_2.rs, lines 431-437) and
`CameraUnit_ASI::is_capturing` (lines 477-483) run
`self.capturing.try_lock()` and match on the result.  The embedding
represents the `try_lock` outcome as `Option Bool`: `some b` when the
lock was acquired and the stored flag reads `b`, `none` on contention. -/

/-- `CameraUnit_ASI::is_capturing` (asicamera_2.rs, lines 477-483). -/
def CameraUnit_is_capturing (lockResult : Option Bool) : Bool :=
  match lockResult with
  | some capturing => capturing
  | none => true

/-- `CameraInfo_ASI::is_capturing` (asicamera_2.rs, lines 431-437);
its body is identical to the driver handle's. -/
def CameraInfo_is_capturing (lockResult : Option Bool) : Bool :=
  match lockResult with
  | some capturing => capturing
  | none => true

/-! ## `cancel_capture` (claim C1)

`CameraUnit_ASI::cancel_capture` (asicamera_2.rs, lines 507-515) and its
helper `sys_cancel_capture` (lines 1239-1247).  The outcome of the
`ASIStopExposure` SDK call is an oracle argument; the embedding records
whether the stop command was issued at all. -/

/-- Result of a `cancel_capture` call: the returned value, the shared
`capturing` flag after the call, and whether `ASIStopExposure` was
invoked. -/
structure CancelOutcome where
  result : Except Error Unit
  capturing : Bool
  stopIssued : Bool
  deriving DecidableEq, Repr

/-- `sys_cancel_capture` (asicamera_2.rs, lines 1239-1247): forwards the
mapped SDK error, if any. -/
def sys_cancel_capture (stop_res : Except Error Unit) : Except Error Unit :=
  stop_res

/-- `CameraUnit_ASI::cancel_capture` (asicamera_2.rs, lines 507-515).
Note the source's guard: `if *capturing { return Ok(()); }` — the early
return fires when a capture IS active, and the hardware stop runs only
when the flag is already false. -/
def cancel_capture (capturing : Bool) (stop_res : Except Error Unit) : CancelOutcome :=
  if capturing then
    { result := .ok (), capturing := capturing, stopIssued := false }
  else
    match sys_cancel_capture stop_res with
    | .error e => { result := .error e, capturing := capturing, stopIssued := true }
    | .ok _ => { result := .ok (), capturing := false, stopIssued := true }

/-! ## `capture_image` (claims C2 and C10)

`CameraUnit_ASI::capture_image` (asicamera_2.rs, lines 533-707).  The
driver state read by the function and the outcomes of the SDK calls it
makes are explicit arguments.  The poll loop (lines 570-595) only ever
exits with the first non-`Working` status returned by
`get_exposure_status`, or propagates that call's error; the embedding
takes that exit outcome as the `poll` oracle field.  The successful
return value (the assembled `ImageData` plus metadata) is abstracted to
`Unit`; the claims under study only concern the error, the shared
`capturing` flag and the argument of `ASIStartExposure`. -/

/-- Driver-state fields of `CameraUnit_ASI` read by `capture_image`. -/
structure CamState where
  capturing : Bool
  is_dark_frame : Bool
  exposureUs : Nat
  roi : ROI
  deriving DecidableEq, Repr

/-- Outcome of the `ASIStartExposure` SDK call: the error codes checked
at asicamera_2.rs, lines 559-568. -/
inductive StartExpResult where
  | ok
  | invalidId
  | cameraClosed
  | videoModeActive
  deriving DecidableEq, Repr

/-- Outcome of the `ASIGetDataAfterExp` SDK call: the error codes
checked at asicamera_2.rs, lines 620-626 (identically at 642-648 and
664-670). -/
inductive ReadoutResult where
  | ok
  | invalidId
  | cameraClosed
  | timedOut
  deriving DecidableEq, Repr

/-- Oracle outcomes for the SDK calls `capture_image` can make, in
program order. -/
structure CaptureHw where
  status0 : Except Error ASIExposureStatus
  roi_fmt : Except Error ASIRoiMode
  start_res : StartExpResult
  poll : Except Error ASIExposureStatus
  stop_res : Except Error Unit
  readout_res : ReadoutResult
  deriving DecidableEq, Repr

/-- Result of a `capture_image` call: the returned value (success
payload abstracted), the shared `capturing` flag after the call, the
dark-frame argument passed to `ASIStartExposure` (`none` when the start
call was never reached), and whether `ASIStopExposure` was invoked. -/
structure CaptureOutcome where
  result : Except Error Unit
  capturing : Bool
  startDarkArg : Option Bool
  stopIssued : Bool
  deriving DecidableEq, Repr

/-- The dark-frame argument of the `ASIStartExposure` call
(asicamera_2.rs, lines 549-558): the source passes `ASI_TRUE` on both
branches of `if self.is_dark_frame`. -/
def startExposureDarkArg (is_dark_frame : Bool) : Bool :=
  if is_dark_frame then true else true

/-- The pixel-readout arm of `capture_image` (asicamera_2.rs, lines
610-678).  The three `ASIImageFormat` arms check the same three error
codes and reset the flag only after those checks, so they share this
body; on an error code the function returns with the `capturing` flag
still `true`. -/
def readout_arm (rd : ReadoutResult) (darkArg : Bool) : CaptureOutcome :=
  match rd with
  | .invalidId =>
      { result := .error .InvalidId, capturing := true,
        startDarkArg := some darkArg, stopIssued := false }
  | .cameraClosed =>
      { result := .error .CameraClosed, capturing := true,
        startDarkArg := some darkArg, stopIssued := false }
  | .timedOut =>
      { result := .error .TimedOut, capturing := true,
        startDarkArg := some darkArg, stopIssued := false }
  | .ok =>
      { result := .ok (), capturing := false,
        startDarkArg := some darkArg, stopIssued := false }

/-- `CameraUnit_ASI::capture_image` (asicamera_2.rs, lines 533-707). -/
def capture_image (s : CamState) (hw : CaptureHw) : CaptureOutcome :=
  match hw.status0 with
  | .error e =>
      { result := .error e, capturing := s.capturing,
        startDarkArg := none, stopIssued := false }
  | .ok stat =>
    if stat = ASIExposureStatus.Working then
      { result := .error .ExposureInProgress, capturing := true,
        startDarkArg := none, stopIssued := false }
    else if stat = ASIExposureStatus.Failed then
      { result := .error .ExposureFailedUnknown, capturing := s.capturing,
        startDarkArg := none, stopIssued := false }
    else
      match hw.roi_fmt with
      | .error e =>
          { result := .error e, capturing := false,
            startDarkArg := none, stopIssued := false }
      | .ok roi =>
        let darkArg := startExposureDarkArg s.is_dark_frame
        match hw.start_res with
        | .invalidId =>
            { result := .error .InvalidId, capturing := false,
              startDarkArg := some darkArg, stopIssued := false }
        | .cameraClosed =>
            { result := .error .CameraClosed, capturing := false,
              startDarkArg := some darkArg, stopIssued := false }
        | .videoModeActive =>
            { result := .error .GeneralErrorVideoModeActive, capturing := true,
              startDarkArg := some darkArg, stopIssued := false }
        | .ok =>
          match hw.poll with
          | .error e =>
              { result := .error e, capturing := true,
                startDarkArg := some darkArg, stopIssued := false }
          | .ok stat =>
            if stat = ASIExposureStatus.Failed then
              { result := .error .ExposureFailedUnknown, capturing := false,
                startDarkArg := some darkArg, stopIssued := false }
            else if stat = ASIExposureStatus.Idle then
              { result := .error .ExposureFailedNoData, capturing := false,
                startDarkArg := some darkArg, stopIssued := false }
            else if stat = ASIExposureStatus.Working then
              match sys_cancel_capture hw.stop_res with
              | .error e =>
                  { result := .error e, capturing := true,
                    startDarkArg := some darkArg, stopIssued := true }
              | .ok _ =>
                  { result := .error .ExposureFailedTimedOut, capturing := false,
                    startDarkArg := some darkArg, stopIssued := true }
            else
              match roi.fmt with
              | .Image_RAW8 => readout_arm hw.readout_res darkArg
              | .Image_RAW16 => readout_arm hw.readout_res darkArg
              | .Image_RGB24 => readout_arm hw.readout_res darkArg

/-- `CameraUnit_ASI::set_shutter_open` (asicamera_2.rs, lines 919-931):
returns the requested value and stores `is_dark_frame := !open`.  The
result pairs the returned value with the `is_dark_frame` field after
the call. -/
def set_shutter_open (mechanical_shutter capturing is_dark_frame : Bool)
    (opn : Bool) : Except Error Bool × Bool :=
  if capturing then
    (.error .ExposureInProgress, is_dark_frame)
  else if !mechanical_shutter then
    (.error .InvalidControlTypeNoShutter, is_dark_frame)
  else
    (.ok opn, !opn)

/-! ## `set_gain` / `set_gain_raw` (claim C8)

`CameraUnit_ASI::set_gain` (asicamera_2.rs, lines 788-799) and
`set_gain_raw` (lines 801-819).  The `set_control_value` outcome is an
oracle; `get_gain_raw` (the post-write read-back, lines 734-740) is an
oracle integer.  Each result is paired with a flag recording whether
the hardware write (`ASISetControlValue`) was attempted. -/

/-- Rust float-to-integer `as` cast: truncation toward zero. -/
def ratTrunc (q : ℚ) : Int :=
  if q < 0 then -⌊-q⌋ else ⌊q⌋

/-- `CameraUnit_ASI::set_gain_raw` (asicamera_2.rs, lines 801-819). -/
def set_gain_raw (gain_min gain_max : Int) (capturing : Bool)
    (set_res : Except Error Unit) (readback : Int) (gain : Int) :
    Except Error Int × Bool :=
  if gain < gain_min then
    (.error .InvalidValueGainRawLow, false)
  else if gain > gain_max then
    (.error .InvalidValueGainRawHigh, false)
  else if capturing then
    (.error .ExposureInProgress, false)
  else
    match set_res with
    | .error e => (.error e, true)
    | .ok _ => (.ok readback, true)

/-- The raw conversion of `set_gain` (asicamera_2.rs, lines 795-796):
`(gain * (gain_max - gain_min) + gain_min) as c_long`. -/
def gainToRaw (gain_min gain_max : Int) (gain : ℚ) : Int :=
  ratTrunc (gain * ((gain_max : ℚ) - (gain_min : ℚ)) + (gain_min : ℚ))

/-- `CameraUnit_ASI::set_gain` (asicamera_2.rs, lines 788-799): checks
the requested value against the range 0-100, converts with
`gain * (gain_max - gain_min) + gain_min` truncated to `c_long`, calls
`set_gain_raw`, and renormalizes the returned raw value. -/
def set_gain (gain_min gain_max : Int) (capturing : Bool)
    (set_res : Except Error Unit) (readback : Int) (gain : ℚ) :
    Except Error ℚ × Bool :=
  if gain < 0 ∨ gain > 100 then
    (.error .InvalidValueGainRange, false)
  else
    let raw := gainToRaw gain_min gain_max gain
    match set_gain_raw gain_min gain_max capturing set_res readback raw with
    | (.error e, w) => (.error e, w)
    | (.ok g, w) =>
        (.ok (((g : ℚ) - (gain_min : ℚ)) / ((gain_max : ℚ) - (gain_min : ℚ))), w)

/-! ## `set_roi` (claims C3 and C7)

`CameraUnit_ASI::set_roi` (asicamera_2.rs, lines 821-917).  The pure
validation/normalization prefix (lines 822-889) is factored out as
`validate_roi`; `set_roi` then adds the capture guard and the hardware
phase (lines 891-916) against explicit SDK-call oracles.  Rust `i32`
division and remainder truncate toward zero (`Int.tdiv` / `Int.tmod`);
`roi.bin_x ≥ 1` holds at every division site, so no division by zero
arises in the source. -/

/-- The validation and normalization prefix of `set_roi`
(asicamera_2.rs, lines 822-889).  The source copies the request into a
mutable `roi` and sets `roi.bin_y = roi.bin_x` before dividing; the
embedding names the successive values of the mutated fields. -/
def validate_roi (props : CamProps) (roi0 : ROI) : Except Error ROI :=
  if roi0.bin_x ≠ roi0.bin_y then
    .error .InvalidValueBinNotEqual
  else if roi0.bin_x < 1 then
    .error .InvalidValueBinTooSmall
  else if ¬ (roi0.bin_x ∈ props.supported_bins) then
    .error .InvalidValueBinUnsupported
  else
    let bin := roi0.bin_x
    let x_max0 := if roi0.x_max ≤ 0 then props.max_width else roi0.x_max
    let y_max0 := if roi0.y_max ≤ 0 then props.max_height else roi0.y_max
    let x_min := Int.tdiv roi0.x_min bin
    let x_maxd := Int.tdiv x_max0 bin
    let y_min := Int.tdiv roi0.y_min bin
    let y_maxd := Int.tdiv y_max0 bin
    let width0 := x_maxd - x_min
    let width := width0 - Int.tmod width0 8
    let height0 := y_maxd - y_min
    let height := height0 - Int.tmod height0 2
    let x_max := x_min + width
    let y_max := y_min + height
    if width < 0 ∨ height < 0 then
      .error .InvalidValueRoiNegative
    else if x_max > Int.tdiv props.max_width bin then
      .error .OutOfBoundsX
    else if y_max > Int.tdiv props.max_height bin then
      .error .OutOfBoundsY
    else if ¬ props.is_usb3_camera ∧ props.name_has_ASI120
        ∧ Int.tmod (width * height) 1024 ≠ 0 then
      .error .InvalidValueASI120
    else
      .ok { x_min := x_min, x_max := x_max, y_min := y_min, y_max := y_max,
            bin_x := bin, bin_y := bin }

/-- Oracle outcomes for the SDK calls of `set_roi`'s hardware phase.
`hw0` is the hardware's current ROI format, returned by
`get_roi_format` when `get_fmt_ok` is `ok`. -/
structure RoiHw where
  hw0 : ASIRoiMode
  get_fmt_ok : Except Error Unit
  get_pos : Except Error (Int × Int)
  set_fmt_new : Except Error Unit
  set_pos : Except Error Unit
  set_fmt_rollback : Except Error Unit
  deriving DecidableEq, Repr

/-- Result of a `set_roi` call: the returned value, the driver's stored
`self.roi` after the call, and the hardware ROI-format register after
the call. -/
structure SetRoiOutcome where
  result : Except Error ROI
  roi : ROI
  hw_geom : ASIRoiMode
  deriving DecidableEq, Repr

/-- `CameraUnit_ASI::set_start_pos` (asicamera_2.rs, lines 360-379):
rejects negative coordinates before the SDK call, then forwards the
`ASISetStartPos` outcome. -/
def set_start_pos (x y : Int) (hw_res : Except Error Unit) : Except Error Unit :=
  if x < 0 ∨ y < 0 then .error .InvalidValueStartPos else hw_res

/-- `CameraUnit_ASI::set_roi` (asicamera_2.rs, lines 821-917).
`stored` is `self.roi` before the call.  After a successful geometry
write, a failing `set_start_pos` triggers a rollback write of the old
geometry; the source then falls through to `self.roi = roi;
Ok(&self.roi)` regardless. -/
def set_roi (props : CamProps) (capturing : Bool) (stored : ROI)
    (hw : RoiHw) (roi0 : ROI) : SetRoiOutcome :=
  match validate_roi props roi0 with
  | .error e => { result := .error e, roi := stored, hw_geom := hw.hw0 }
  | .ok roi =>
    if capturing then
      { result := .error .ExposureInProgress, roi := stored, hw_geom := hw.hw0 }
    else
      match hw.get_fmt_ok with
      | .error e => { result := .error e, roi := stored, hw_geom := hw.hw0 }
      | .ok _ =>
        match hw.get_pos with
        | .error e => { result := .error e, roi := stored, hw_geom := hw.hw0 }
        | .ok _ =>
          let roi_md_old := hw.hw0
          let roi_md : ASIRoiMode :=
            { hw.hw0 with
              width := roi.x_max - roi.x_min,
              height := roi.y_max - roi.y_min,
              bin := roi.bin_x }
          match hw.set_fmt_new with
          | .error e => { result := .error e, roi := stored, hw_geom := hw.hw0 }
          | .ok _ =>
            match set_start_pos roi.x_min roi.y_min hw.set_pos with
            | .error _ =>
              match hw.set_fmt_rollback with
              | .error e => { result := .error e, roi := stored, hw_geom := roi_md }
              | .ok _ => { result := .ok roi, roi := roi, hw_geom := roi_md_old }
            | .ok _ => { result := .ok roi, roi := roi, hw_geom := roi_md }

/-! ## `find_optimum_exposure` (claims C4, C5, C6)

`ImageData::find_optimum_exposure` (src/imagedata/src/imagedata.rs,
lines 113-218).  Pixels are the mono-16-bit values of the frame
(`self.img.to_luma16()`), durations are microseconds, and the `f32`/
`f64` arithmetic of the source is carried out exactly over `ℚ`.  The
source's bin-promotion `while` loop (lines 188-191) has no syntactic
bound; it terminates in the source because repeated `f64` division by
4 underflows to zero after at most ~1050 steps, so the embedding gives
it a fuel parameter and instantiates it with 2048, which dominates
that bound. -/

/-- Insert into a sorted list (ascending), used to embed `img.sort()`
(imagedata.rs, line 135). -/
def insertSorted (x : Nat) : List Nat → List Nat
  | [] => [x]
  | y :: ys => if x ≤ y then x :: y :: ys else y :: insertSorted x ys

/-- `img.sort()` (imagedata.rs, line 135): ascending sort of the pixel
values. -/
def sortPixels : List Nat → List Nat
  | [] => []
  | x :: xs => insertSorted x (sortPixels xs)

/-- The percentile-rank index computation of `find_optimum_exposure`
(imagedata.rs, lines 136-144), for a sorted array of length `n`:
`coord = n - 1` when `percentile_pix > 99.9`, else
`floor(percentile_pix * (n-1) * 0.01)`; then, when
`coord < pixel_exclusion`, `coord` is set to `n - 1 - pixel_exclusion`. -/
def percentileCoord (n : Nat) (percentile_pix : ℚ) (pixel_exclusion : Nat) : Nat :=
  let coord :=
    if percentile_pix > 999/10 then n - 1
    else (⌊percentile_pix * ((n - 1 : Nat) : ℚ) * (1/100)⌋).toNat
  if coord < pixel_exclusion then n - 1 - pixel_exclusion else coord

/-- The sampled pixel value of `find_optimum_exposure` (imagedata.rs,
lines 146-154): the sorted frame's value at `percentileCoord`, or
`1e-5` when the index is out of range. -/
def sampledValue (pixels : List Nat) (percentile_pix : ℚ) (pixel_exclusion : Nat) : ℚ :=
  let sorted := sortPixels pixels
  let coord := percentileCoord sorted.length percentile_pix pixel_exclusion
  match sorted.get? coord with
  | some v => (v : ℚ)
  | none => 1/100000

/-- Rust `as u64` applied to a nonnegative `f64` (the source always
applies `.abs()` first): truncation, i.e. the floor. -/
def ratToMicros (q : ℚ) : Nat :=
  (⌊q⌋).toNat

/-- The bin-reduction loop of `find_optimum_exposure` (imagedata.rs,
lines 183-186): `while tgt_exp < max_allowed_exp.as_micros() as f64 &&
bin_ > 2 { bin_ /= 2; tgt_exp *= 4.0; }`.  `tgt_exp` is in seconds
while the bound is in microseconds, exactly as in the source. -/
def shrinkBinLoop (maxExpUs : Nat) (tgt : ℚ) (bin : Nat) : ℚ × Nat :=
  if tgt < (maxExpUs : ℚ) ∧ 2 < bin then
    shrinkBinLoop maxExpUs (tgt * 4) (bin / 2)
  else (tgt, bin)
termination_by bin
decreasing_by exact Nat.div_lt_self (by omega) (by omega)

/-- The bin-promotion loop of `find_optimum_exposure` (imagedata.rs,
lines 188-191): `while tgt_exp > max_allowed_exp.as_micros() as f64 &&
bin_ * 2 <= max_allowed_bin { bin_ *= 2; tgt_exp /= 4.0; }`.  Again the
bound is in microseconds while `tgt_exp` is in seconds, as in the
source.  `fuel` bounds the iterations (see section comment). -/
def growBinLoop (fuel : Nat) (maxExpUs maxBin : Nat) (tgt : ℚ) (bin : Nat) : ℚ × Nat :=
  match fuel with
  | 0 => (tgt, bin)
  | fuel + 1 =>
    if tgt > (maxExpUs : ℚ) ∧ bin * 2 ≤ maxBin then
      growBinLoop fuel maxExpUs maxBin (tgt / 4) (bin * 2)
    else (tgt, bin)

/-- The `if change_bin` block of `find_optimum_exposure` (imagedata.rs,
lines 179-195): convert the projected exposure to seconds, run the
applicable loop, convert back to a microsecond `Duration`. -/
def binAdjust (fuel : Nat) (maxExpUs maxBin : Nat) (targetUs bin : Nat) : Nat × Nat :=
  let tgt : ℚ := (targetUs : ℚ) * (1/1000000)
  let p :=
    if tgt < (maxExpUs : ℚ) * (1/1000000) then shrinkBinLoop maxExpUs tgt bin
    else growBinLoop fuel maxExpUs maxBin tgt bin
  (ratToMicros |p.1 * 1000000|, p.2)

/-- The final exposure clamps of `find_optimum_exposure` (imagedata.rs,
lines 197-203): clamp to `max_allowed_exp` from above, then replace any
value below `1e-5` seconds by 10 microseconds. -/
def clampExposure (maxExpUs e : Nat) : Nat :=
  let e1 := if e > maxExpUs then maxExpUs else e
  if (e1 : ℚ) * (1/1000000) < 1/100000 then 10 else e1

/-- The final bin clamps of `find_optimum_exposure` (imagedata.rs,
lines 205-210). -/
def clampBin (maxBin b : Nat) : Nat :=
  let b1 := if b < 1 then 1 else b
  if b1 > maxBin then maxBin else b1

/-- Rust `as u16` applied to an `i32` (`self.meta.bin_x as u16`,
imagedata.rs, line 128): the low 16 bits. -/
def u16_of_i32 (x : Int) : Nat :=
  (Int.emod x 65536).toNat

/-- `ImageData::find_optimum_exposure` (imagedata.rs, lines 113-218).
Arguments follow the source: the frame's pixel values and metadata
(`exposureUs`, `bin_x`, `bin_y`), then the parameters
`percentile_pix`, `pixel_tgt`, `max_allowed_exp` (µs),
`max_allowed_bin`, `pixel_exclusion`, `pixel_uncertainty`.  The
source's return type is `Result<(Duration, u16), String>` but every
path returns `Ok`, so the embedding returns the pair directly. -/
def find_optimum_exposure (fuel : Nat) (pixels : List Nat) (exposureUs : Nat)
    (bin_x bin_y : Int) (percentile_pix : ℚ)
    (pixel_tgt maxExpUs maxBin pixel_exclusion pixel_uncertainty : Nat) :
    Nat × Nat :=
  let bin := u16_of_i32 bin_x
  let val := sampledValue pixels percentile_pix pixel_exclusion
  if |(pixel_tgt : ℚ) - val| < (pixel_uncertainty : ℚ) then
    (exposureUs, bin)
  else
    let val := if val ≤ 1/100000 then (1/100000 : ℚ) else val
    let targetUs :=
      ratToMicros |(pixel_tgt : ℚ) * (exposureUs : ℚ) * (1/1000000) / val * 1000000|
    let p :=
      if bin_x = bin_y then binAdjust fuel maxExpUs maxBin targetUs bin
      else (targetUs, bin)
    (clampExposure maxExpUs p.1, clampBin maxBin p.2)

/-! ## Helper lemmas -/

/-- Subtracting the truncated remainder leaves a multiple of the
divisor. -/
theorem tmod_sub_self_emod (a b : Int) : Int.emod (a - Int.tmod a b) b = 0 := by
  have h := Int.tdiv_add_tmod a b
  have h2 : a - Int.tmod a b = b * a.tdiv b := by omega
  rw [h2]
  exact Int.mul_emod_right b (a.tdiv b)

/-- The seconds-scale comparison of `clampExposure` reads `e < 10` on
microseconds. -/
theorem micro_small_iff (e : Nat) : ((e : ℚ) * (1/1000000) < 1/100000) ↔ e < 10 := by
  constructor
  · intro h
    by_contra hc
    push_neg at hc
    have h10 : (10 : ℚ) ≤ (e : ℚ) := by exact_mod_cast hc
    linarith
  · intro h
    have h10 : (e : ℚ) < 10 := by exact_mod_cast h
    linarith

/-- `clampExposure` lands in `[10, maxExpUs]` whenever `10 ≤ maxExpUs`. -/
theorem clampExposure_bounds (maxExpUs e : Nat) (h : 10 ≤ maxExpUs) :
    10 ≤ clampExposure maxExpUs e ∧ clampExposure maxExpUs e ≤ maxExpUs := by
  simp only [clampExposure, micro_small_iff]
  split_ifs <;> constructor <;> omega

/-- `clampBin` lands in `[1, maxBin]` whenever `1 ≤ maxBin`. -/
theorem clampBin_bounds (maxBin b : Nat) (h : 1 ≤ maxBin) :
    1 ≤ clampBin maxBin b ∧ clampBin maxBin b ≤ maxBin := by
  simp only [clampBin]
  split_ifs <;> constructor <;> omega

/-- Rust `as`-truncation keeps a value between two integer bounds. -/
theorem ratTrunc_mem (lo hi : Int) (q : ℚ) (h1 : (lo : ℚ) ≤ q) (h2 : q ≤ (hi : ℚ)) :
    lo ≤ ratTrunc q ∧ ratTrunc q ≤ hi := by
  unfold ratTrunc
  split_ifs with hq
  · have hceil : -⌊-q⌋ = ⌈q⌉ := by rw [Int.floor_neg]; simp
    rw [hceil]
    constructor
    · have : (lo : ℚ) ≤ (⌈q⌉ : ℚ) := le_trans h1 (Int.le_ceil q)
      exact_mod_cast this
    · exact Int.ceil_le.mpr h2
  · constructor
    · exact Int.le_floor.mpr h1
    · have : (⌊q⌋ : ℚ) ≤ (hi : ℚ) := le_trans (Int.floor_le q) h2
      exact_mod_cast this

/-- Both branches of the source's dark-frame conditional pass
`ASI_TRUE`. -/
theorem startExposureDarkArg_true (b : Bool) : startExposureDarkArg b = true := by
  cases b <;> rfl

/-- `capture_image` does not depend on the `is_dark_frame` field at
all: its only use is the constant dark-frame argument. -/
theorem capture_image_dark_irrel (s : CamState) (hw : CaptureHw) (b : Bool) :
    capture_image { s with is_dark_frame := b } hw = capture_image s hw := by
  simp only [capture_image, startExposureDarkArg_true]

/-- Whenever `capture_image` reaches `ASIStartExposure`, the dark-frame
argument it passes is the true value. -/
theorem capture_startDarkArg_ne_false (s : CamState) (hw : CaptureHw) :
    (capture_image s hw).startDarkArg ≠ some false := by
  simp only [capture_image, startExposureDarkArg_true, sys_cancel_capture]
  rcases hw with ⟨st0, rf, sr, pl, stp, rd⟩
  rcases st0 with _ | stat
  · simp
  dsimp only
  split_ifs
  · simp
  · simp
  rcases rf with _ | roi
  · simp
  dsimp only
  rcases sr with _ | _ | _ | _
  · rcases pl with _ | stat2
    · simp
    dsimp only
    split_ifs
    · simp
    · simp
    · rcases stp with _ | _ <;> simp
    · obtain ⟨w, hh, bb, fmt⟩ := roi
      rcases fmt <;> rcases rd <;> simp [readout_arm]
  · simp
  · simp
  · simp

/-! ## Concrete instances used by the claim theorems -/

/-- Driver state for the readout-failure scenario: not capturing, 100 ms
exposure, full-frame-like stored ROI. -/
def c2state : CamState :=
  { capturing := false, is_dark_frame := false, exposureUs := 100000,
    roi := { x_min := 0, x_max := 16, y_min := 0, y_max := 16, bin_x := 1, bin_y := 1 } }

/-- Hardware oracle for the readout-failure scenario: idle at entry, a
16x16 RAW16 format, successful start, poll ends `Success`, and
`ASIGetDataAfterExp` reports `ASI_ERROR_TIMEOUT`. -/
def c2hw : CaptureHw :=
  { status0 := .ok .Idle,
    roi_fmt := .ok { width := 16, height := 16, bin := 1, fmt := .Image_RAW16 },
    start_res := .ok, poll := .ok .Success, stop_res := .ok (),
    readout_res := .timedOut }

/-- Sensor properties of the `set_roi` rollback scenario: a 3008x2200
USB3 sensor supporting bins 1 and 2. -/
def c3props : CamProps :=
  { max_width := 3008, max_height := 2200, supported_bins := [1, 2],
    is_usb3_camera := true, name_has_ASI120 := false }

/-- The requested ROI of the rollback scenario (the spec's §8 scenario
request). -/
def c3req : ROI :=
  { x_min := 300, x_max := 2700, y_min := 800, y_max := 2100, bin_x := 1, bin_y := 1 }

/-- The normalized ROI `validate_roi` produces for `c3req`. -/
def c3norm : ROI :=
  { x_min := 300, x_max := 2700, y_min := 800, y_max := 2100, bin_x := 1, bin_y := 1 }

/-- Hardware geometry before the rollback scenario: full frame, bin 1. -/
def c3old : ASIRoiMode :=
  { width := 3008, height := 2200, bin := 1, fmt := .Image_RAW16 }

/-- Stored driver ROI before the rollback scenario. -/
def c3stored : ROI :=
  { x_min := 0, x_max := 3008, y_min := 0, y_max := 2200, bin_x := 1, bin_y := 1 }

/-- Hardware oracle for the rollback scenario: reads succeed, the new
geometry write succeeds, the start-position write fails out of bounds,
the rollback write succeeds. -/
def c3hw : RoiHw :=
  { hw0 := c3old, get_fmt_ok := .ok (), get_pos := .ok (0, 0),
    set_fmt_new := .ok (), set_pos := .error .OutOfBoundsStartPos,
    set_fmt_rollback := .ok () }

/-- Sensor properties for the `validate_roi` witness (same sensor as
the spec's §8 scenario). -/
def c7props : CamProps :=
  { max_width := 3008, max_height := 2200, supported_bins := [1, 2],
    is_usb3_camera := true, name_has_ASI120 := false }

/-- The §8 scenario request for the `validate_roi` witness. -/
def c7req : ROI :=
  { x_min := 300, x_max := 2700, y_min := 800, y_max := 2100, bin_x := 1, bin_y := 1 }

/-- The normalized result for `c7req`. -/
def c7norm : ROI :=
  { x_min := 300, x_max := 2700, y_min := 800, y_max := 2100, bin_x := 1, bin_y := 1 }

/-! ## Claim theorems -/

/-- C1: evaluation of `cancel_capture` at both prior states, with a
succeeding `ASIStopExposure`.  The claim says a cancel during an active
capture issues the hardware stop and resets the flag, and a cancel from
`Idle` issues no stop; the code does the reverse on both counts: with
the flag set it returns `Ok` without any stop and leaves the flag set,
and from `Idle` it does issue the stop. -/
theorem cancel_capture_guard_inverted :
    (cancel_capture true (.ok ())).result = .ok ()
  ∧ (cancel_capture true (.ok ())).capturing = true
  ∧ (cancel_capture true (.ok ())).stopIssued = false
  ∧ (cancel_capture false (.ok ())).result = .ok ()
  ∧ (cancel_capture false (.ok ())).stopIssued = true := by
  decide

/-- C2: evaluation of `capture_image` on a run whose exposure succeeds
and whose pixel readout then reports `ASI_ERROR_TIMEOUT`.  The error is
returned verbatim, but the `capturing` flag is still `true` on return —
the flag reset sits after the early error returns — contradicting the
claim that a failed readout resets the state to `Idle`. -/
theorem capture_image_readout_error_keeps_capturing :
    (capture_image c2state c2hw).result = .error .TimedOut
  ∧ (capture_image c2state c2hw).capturing = true := by
  decide

set_option maxRecDepth 8000 in
/-- C3: evaluation of `set_roi` on a validated request whose
start-position write fails and whose geometry rollback succeeds.  The
hardware geometry ends back at the old 3008-wide frame, yet the call
returns `Ok` with the new 2400-wide ROI stored — a silent partial
success, contradicting the claim that the operation never reports
success with a partially applied state. -/
theorem set_roi_reports_success_after_rollback :
    (set_roi c3props false c3stored c3hw c3req).result = .ok c3norm
  ∧ (set_roi c3props false c3stored c3hw c3req).hw_geom = c3old
  ∧ (set_roi c3props false c3stored c3hw c3req).roi = c3norm
  ∧ c3norm.x_max - c3norm.x_min ≠ c3old.width := by
  decide

set_option maxRecDepth 8000 in
/-- C4: evaluation of `find_optimum_exposure` on a frame whose
projected exposure (10 s) exceeds the cap (1 s) with `bin = 1` and
`max_bin = 4`.  The claim says the bin steps to 2 then 4 while the
projection is quartered; the code compares the projection in seconds
against `max_allowed_exp.as_micros()` (microseconds), so the promotion
loop never runs and the result keeps `bin = 1` with the exposure merely
clamped.  The promotion loop's guard fails on its first test here, so
the result does not depend on the fuel given to the loop. -/
theorem find_optimum_exposure_no_bin_promotion_at_cap :
    find_optimum_exposure 16 [100, 100, 100, 100] 1000000 1 1 50 1000 1000000 4 0 1
      = (1000000, 1) := by
  with_unfolding_all decide

set_option maxRecDepth 8000 in
/-- C5: evaluation of the percentile-index computation.  For a sorted
array of 100 pixels with exclusion margin 10: at percentile 99 the
index 98 is within the margin of the top but is left unchanged (the
claim demands 88); at percentile 1 the index 0 is far from the top yet
is jumped to 89 (the code's guard tests the bottom of the array and
relocates to the top).  Also, at percentile exactly 99.9 with 11 pixels
the index is 9, not the clamped 10 the claim's "at least 99.9" demands
(the code clamps only strictly above 99.9). -/
theorem percentileCoord_exclusion_misdirected :
    percentileCoord 100 99 10 = 98
  ∧ percentileCoord 100 1 10 = 89
  ∧ percentileCoord 11 (999/10) 0 = 9 := by
  with_unfolding_all decide

set_option maxRecDepth 8000 in
/-- C6 counterexample: a converged single-pixel frame (sampled value
equals the target) whose current exposure, 2 s, exceeds
`max_allowed_exp = 1 s`.  The convergence early-return hands back the
exposure unchanged, outside `[epsilon, max_allowed_exp]`, so the
claimed bounds do not hold for every input. -/
theorem find_optimum_exposure_convergence_skips_clamp :
    find_optimum_exposure 16 [500] 2000000 1 1 50 500 1000000 4 0 10 = (2000000, 1)
  ∧ 1000000 < (find_optimum_exposure 16 [500] 2000000 1 1 50 500 1000000 4 0 10).1 := by
  with_unfolding_all decide

/-- C6 (amended): on every call that does NOT take the convergence
early-return, and provided `max_allowed_exp ≥ 10 µs` and
`max_allowed_bin ≥ 1`, the returned exposure lies in
`[10 µs, max_allowed_exp]` and the returned bin in
`[1, max_allowed_bin]`. -/
theorem find_optimum_exposure_bounds (fuel : Nat) (pixels : List Nat)
    (exposureUs : Nat) (bin_x bin_y : Int) (pct : ℚ)
    (tgt maxExpUs maxBin excl unc : Nat)
    (hconv : ¬ |(tgt : ℚ) - sampledValue pixels pct excl| < (unc : ℚ))
    (hexp : 10 ≤ maxExpUs) (hbin : 1 ≤ maxBin) :
    10 ≤ (find_optimum_exposure fuel pixels exposureUs bin_x bin_y pct tgt maxExpUs maxBin excl unc).1
  ∧ (find_optimum_exposure fuel pixels exposureUs bin_x bin_y pct tgt maxExpUs maxBin excl unc).1 ≤ maxExpUs
  ∧ 1 ≤ (find_optimum_exposure fuel pixels exposureUs bin_x bin_y pct tgt maxExpUs maxBin excl unc).2
  ∧ (find_optimum_exposure fuel pixels exposureUs bin_x bin_y pct tgt maxExpUs maxBin excl unc).2 ≤ maxBin := by
  simp only [find_optimum_exposure]
  rw [if_neg hconv]
  exact ⟨(clampExposure_bounds _ _ hexp).1, (clampExposure_bounds _ _ hexp).2,
    (clampBin_bounds _ _ hbin).1, (clampBin_bounds _ _ hbin).2⟩

set_option maxRecDepth 8000 in
/-- Witness for the amended C6 theorem at a non-converged frame. -/
theorem find_optimum_exposure_bounds_witness :
    10 ≤ (find_optimum_exposure 16 [100, 100, 100, 100] 1000000 1 1 50 1000 1000000 4 0 1).1
  ∧ (find_optimum_exposure 16 [100, 100, 100, 100] 1000000 1 1 50 1000 1000000 4 0 1).1 ≤ 1000000
  ∧ 1 ≤ (find_optimum_exposure 16 [100, 100, 100, 100] 1000000 1 1 50 1000 1000000 4 0 1).2
  ∧ (find_optimum_exposure 16 [100, 100, 100, 100] 1000000 1 1 50 1000 1000000 4 0 1).2 ≤ 4 :=
  find_optimum_exposure_bounds 16 [100, 100, 100, 100] 1000000 1 1 50 1000 1000000 4 0 1
    (by with_unfolding_all decide) (by norm_num) (by norm_num)

/-- C7: every request accepted by `set_roi`'s validation yields a
normalized ROI whose width is a multiple of 8, whose height is a
multiple of 2, and whose bin factors both equal the requested
`bin_x`. -/
theorem validate_roi_alignment (props : CamProps) (r nr : ROI)
    (h : validate_roi props r = .ok nr) :
    Int.emod (nr.x_max - nr.x_min) 8 = 0 ∧ Int.emod (nr.y_max - nr.y_min) 2 = 0
    ∧ nr.bin_x = r.bin_x ∧ nr.bin_y = r.bin_x := by
  simp only [validate_roi] at h
  split_ifs at h
  all_goals injection h with h
  all_goals subst h
  all_goals
    exact ⟨by simpa using tmod_sub_self_emod _ 8, by simpa using tmod_sub_self_emod _ 2, rfl, rfl⟩

set_option maxRecDepth 8000 in
/-- Witness for C7 at the spec's §8 scenario: ROI 300..2700 x 800..2100
at bin 1 on a 3008x2200 sensor is accepted with width 2400 and height
1300. -/
theorem validate_roi_alignment_witness :
    Int.emod (c7norm.x_max - c7norm.x_min) 8 = 0
  ∧ Int.emod (c7norm.y_max - c7norm.y_min) 2 = 0
  ∧ c7norm.bin_x = c7req.bin_x ∧ c7norm.bin_y = c7req.bin_x :=
  validate_roi_alignment c7props c7req c7norm (by decide)

set_option maxRecDepth 8000 in
/-- C8 counterexample: the normalized gain 2 lies in `[0, 100]` and
passes `set_gain`'s range check (with `gain_min = 0`, `gain_max = 100`,
no capture in progress), yet the converted raw value 200 exceeds
`gain_max`, so `set_gain_raw` rejects it before any hardware call: the
returned flag records that no write was attempted, and the error is the
raw-range rejection, not the 0-100 one. -/
theorem set_gain_in_range_rejected :
    set_gain 0 100 false (.ok ()) 50 2 = (.error .InvalidValueGainRawHigh, false) := by
  with_unfolding_all decide

/-- C8 (amended): with no capture in progress and a succeeding
hardware write, `set_gain`'s behavior is decided by the truncated raw
conversion `gainToRaw`: (a) values outside `[0, 100]` are rejected up
front with the 0-100 range error and no hardware call; (b) when the
converted raw value lands in `[gain_min, gain_max]`, the gain is
written and the renormalized read-back value is returned; (c) when the
raw value is at least `gain_min` but exceeds `gain_max`, and (d) when
it is below `gain_min`, `set_gain_raw` rejects it as out of range with
no hardware call; (e) every normalized gain in `[0, 1]` converts into
`[gain_min, gain_max]` (for `gain_min ≤ gain_max`) and is therefore
written — and by (b) so is any larger gain whose truncated conversion
still lands in range, such as 1.005 with raw range 0..100. -/
theorem set_gain_range_behavior (gain_min gain_max readback : Int) (gain : ℚ) :
    ((gain < 0 ∨ gain > 100) →
      set_gain gain_min gain_max false (.ok ()) readback gain
        = (.error .InvalidValueGainRange, false))
  ∧ (¬ (gain < 0 ∨ gain > 100) →
      gain_min ≤ gainToRaw gain_min gain_max gain →
      gainToRaw gain_min gain_max gain ≤ gain_max →
      set_gain gain_min gain_max false (.ok ()) readback gain
        = (.ok (((readback : ℚ) - (gain_min : ℚ)) / ((gain_max : ℚ) - (gain_min : ℚ))), true))
  ∧ (¬ (gain < 0 ∨ gain > 100) →
      gain_min ≤ gainToRaw gain_min gain_max gain →
      gain_max < gainToRaw gain_min gain_max gain →
      set_gain gain_min gain_max false (.ok ()) readback gain
        = (.error .InvalidValueGainRawHigh, false))
  ∧ (¬ (gain < 0 ∨ gain > 100) →
      gainToRaw gain_min gain_max gain < gain_min →
      set_gain gain_min gain_max false (.ok ()) readback gain
        = (.error .InvalidValueGainRawLow, false))
  ∧ (0 ≤ gain → gain ≤ 1 → gain_min ≤ gain_max →
      gain_min ≤ gainToRaw gain_min gain_max gain
      ∧ gainToRaw gain_min gain_max gain ≤ gain_max) := by
  refine ⟨?_, ?_, ?_, ?_, ?_⟩
  · intro h
    simp only [set_gain]
    rw [if_pos h]
  · intro h hlo hhi
    have hsgr : set_gain_raw gain_min gain_max false (.ok ()) readback
        (gainToRaw gain_min gain_max gain) = (.ok readback, true) := by
      unfold set_gain_raw
      rw [if_neg (not_lt.mpr hlo), if_neg (not_lt.mpr hhi), if_neg (by simp)]
    simp only [set_gain]
    rw [if_neg h, hsgr]
  · intro h hlo hhi
    have hsgr : set_gain_raw gain_min gain_max false (.ok ()) readback
        (gainToRaw gain_min gain_max gain) = (.error .InvalidValueGainRawHigh, false) := by
      unfold set_gain_raw
      rw [if_neg (not_lt.mpr hlo), if_pos hhi]
    simp only [set_gain]
    rw [if_neg h, hsgr]
  · intro h hlo
    have hsgr : set_gain_raw gain_min gain_max false (.ok ()) readback
        (gainToRaw gain_min gain_max gain) = (.error .InvalidValueGainRawLow, false) := by
      unfold set_gain_raw
      rw [if_pos hlo]
    simp only [set_gain]
    rw [if_neg h, hsgr]
  · intro h0 h1 hmm
    have hmmq : (gain_min : ℚ) ≤ (gain_max : ℚ) := by exact_mod_cast hmm
    have hlo : (gain_min : ℚ) ≤ gain * ((gain_max : ℚ) - (gain_min : ℚ)) + (gain_min : ℚ) := by
      nlinarith
    have hhi : gain * ((gain_max : ℚ) - (gain_min : ℚ)) + (gain_min : ℚ) ≤ (gain_max : ℚ) := by
      nlinarith
    exact ratTrunc_mem gain_min gain_max _ hlo hhi

/-- Witness for the amended C8 theorem: gain 1/2 with raw range 0..100
is written and read back, and so is gain 1.005, whose conversion
truncates to raw 100 = gain_max. -/
theorem set_gain_range_behavior_witness :
    set_gain 0 100 false (.ok ()) 37 (1/2)
      = (.ok ((((37 : Int) : ℚ) - ((0 : Int) : ℚ)) / (((100 : Int) : ℚ) - ((0 : Int) : ℚ))), true)
  ∧ set_gain 0 100 false (.ok ()) 100 (1005/1000)
      = (.ok ((((100 : Int) : ℚ) - ((0 : Int) : ℚ)) / (((100 : Int) : ℚ) - ((0 : Int) : ℚ))), true) :=
  ⟨(set_gain_range_behavior 0 100 37 (1/2)).2.1 (by norm_num)
      (by with_unfolding_all decide) (by with_unfolding_all decide),
   (set_gain_range_behavior 0 100 100 (1005/1000)).2.1 (by norm_num)
      (by with_unfolding_all decide) (by with_unfolding_all decide)⟩

/-- C9: `is_capturing` on either handle returns the stored flag when
the `try_lock` succeeds, and reports `true` (capturing) when the lock
is contended, for both the driver handle and the info-only handle. -/
theorem is_capturing_try_lock_spec (b : Bool) :
    CameraUnit_is_capturing (some b) = b
  ∧ CameraInfo_is_capturing (some b) = b
  ∧ CameraUnit_is_capturing none = true
  ∧ CameraInfo_is_capturing none = true :=
  ⟨rfl, rfl, rfl, rfl⟩

/-- C10: for any two `capture_image` runs on states differing only in
`is_dark_frame` (as produced by `set_shutter_open` with any two
requested shutter positions), the dark-frame argument passed to
`ASIStartExposure` is the same, and whenever the start call is reached
that argument is the true value. -/
theorem capture_image_dark_frame_noninterference (s : CamState) (hw : CaptureHw)
    (o₁ o₂ : Bool) :
    (capture_image
        { s with is_dark_frame := (set_shutter_open true false s.is_dark_frame o₁).2 } hw).startDarkArg
      = (capture_image
        { s with is_dark_frame := (set_shutter_open true false s.is_dark_frame o₂).2 } hw).startDarkArg
  ∧ ∀ b : Bool, (capture_image { s with is_dark_frame := b } hw).startDarkArg ≠ some false := by
  constructor
  · simp only [capture_image_dark_irrel]
  · intro b
    exact capture_startDarkArg_ne_false { s with is_dark_frame := b } hw

end Asicam
